import Mathlib

/-!
Shallow embedding of `backend/server.py` from the `pm` repository: an HTTP
service that stores project requirements, renders a planning prompt, sends it
to an external text-generation model, parses the model's JSON reply into a
typed project plan, and persists both entities in a document store.

Modelling conventions:
* Python `str` values manipulated character-wise (strip, slicing) are
  `List Char`; Python string indices are code points, matching `List Char`.
* The external model call is an oracle: the reply text is a parameter, and
  the output records the prompt that was sent (`none` when no call is made).
* `json.loads` is an abstract parameter `parse : List Char → Option Json`;
  theorems that need its whitespace-insensitivity take it as a hypothesis.
* The document store is a pair of lists of documents; `insert_one` appends a
  document carrying a storage-assigned `_id` (modelled as `oid : Option Nat`
  drawn from a counter); `find_one`/`find` read in insertion order.
* FastAPI exception control flow (`HTTPException`, `try`/`except`) becomes
  `Except (Nat × String)` carrying the HTTP status code and detail string.
-/

/-- Characters stripped by Python `str.strip()` (the ASCII whitespace set). -/
def isPySpace (c : Char) : Bool :=
  c = ' ' || c = '\t' || c = '\n' || c = '\r' || c = '\x0b' || c = '\x0c'

/-- Python `str.strip()`: remove leading and trailing whitespace. -/
def pyStrip (l : List Char) : List Char :=
  ((l.dropWhile isPySpace).reverse.dropWhile isPySpace).reverse

/-- Python `str.startswith(pat)` on code-point lists (pattern second). -/
def startsWithChars : List Char → List Char → Bool
  | _, [] => true
  | [], _ :: _ => false
  | a :: as, b :: bs => a == b && startsWithChars as bs

/-- Python `str.endswith(pat)` on code-point lists (pattern second). -/
def endsWithChars (l pat : List Char) : Bool :=
  startsWithChars l.reverse pat.reverse

/-- Python slice `l[a:-b]`: elements at indices `a ≤ i < len l - b`. -/
def pySliceToNeg (l : List Char) (a b : Nat) : List Char :=
  (l.take (l.length - b)).drop a

/-- JSON values as produced by `json.loads` (numbers as rationals, objects as
ordered key/value lists; Python `dict` keys are unique after parsing). -/
inductive Json where
  | null
  | boolean (b : Bool)
  | num (q : Rat)
  | str (s : String)
  | arr (xs : List Json)
  | obj (fields : List (String × Json))

/-- Python `d[k]` on a parsed JSON value: key lookup when the value is an
object, failure (KeyError / TypeError) otherwise. -/
def Json.lookupField : Json → String → Option Json
  | .obj fs, k => fs.lookup k
  | _, _ => none

/-- `ProjectRequirements` pydantic model (line 34): the stored requirements
record. `id` and `created_at` are generated at construction. -/
structure ProjectRequirements where
  id : String
  title : String
  description : String
  business_context : String
  success_criteria : String
  constraints : String
  stakeholders : String
  timeline_preference : String
  budget_range : Option String
  created_at : Nat
deriving DecidableEq

/-- `ProjectObjective` pydantic model (line 46). -/
structure ProjectObjective where
  objective : String
  specific : String
  measurable : String
  achievable : String
  relevant : String
  time_bound : String
deriving DecidableEq

/-- `WBSTask` pydantic model (line 54). -/
structure WBSTask where
  id : String
  name : String
  description : String
  level : Int
  parent_id : Option String
  estimated_hours : Int
  dependencies : List String
  assigned_role : String
  priority : String
deriving DecidableEq

/-- `ResourceEstimate` pydantic model (line 65). -/
structure ResourceEstimate where
  role : String
  hours_required : Int
  skill_level : String
  cost_estimate : Option Rat
deriving DecidableEq

/-- `RiskItem` pydantic model (line 71). -/
structure RiskItem where
  risk : String
  probability : String
  impact : String
  mitigation_strategy : String
  owner : String
deriving DecidableEq

/-- `ProjectPlan` pydantic model (line 78): the stored plan record. -/
structure ProjectPlan where
  id : String
  project_requirements_id : String
  objectives : List ProjectObjective
  wbs_tasks : List WBSTask
  timeline_weeks : Int
  resource_estimates : List ResourceEstimate
  risk_analysis : List RiskItem
  success_metrics : List String
  next_steps : List String
  confidence_score : Rat
  created_at : Nat
deriving DecidableEq

/-- `ProjectRequirementsCreate` pydantic model (line 91): the POST body. -/
structure ProjectRequirementsCreate where
  title : String
  description : String
  business_context : String
  success_criteria : String
  constraints : String
  stakeholders : String
  timeline_preference : String
  budget_range : Option String
deriving DecidableEq

/-- A document in the `project_requirements` collection: the record fields
plus the storage-assigned `_id` (present after `insert_one`). -/
structure ReqDoc where
  oid : Option Nat
  req : ProjectRequirements
deriving DecidableEq

/-- A document in the `project_plans` collection. -/
structure PlanDoc where
  oid : Option Nat
  plan : ProjectPlan
deriving DecidableEq

/-- The document store: both collections in insertion order, plus the counter
from which storage `_id`s are drawn. -/
structure DB where
  project_requirements : List ReqDoc
  project_plans : List PlanDoc
  nextOid : Nat
deriving DecidableEq

/-- `db.project_requirements.find_one({"id": rid})`: first document whose
`id` field equals `rid`, in insertion order. -/
def findReq (docs : List ReqDoc) (rid : String) : Option ReqDoc :=
  docs.find? (fun d => d.req.id == rid)

/-- `db.project_plans.find_one({"id": pid})`. -/
def findPlan (docs : List PlanDoc) (pid : String) : Option PlanDoc :=
  docs.find? (fun d => d.plan.id == pid)

/-- Pydantic `str` field from a parsed JSON value. -/
def decodeStr : Json → Option String
  | .str s => some s
  | _ => none

/-- Pydantic `int` field: a JSON number with an integral value. -/
def decodeInt : Json → Option Int
  | .num q => if q.den = 1 then some q.num else none
  | _ => none

/-- Pydantic `float` field: any JSON number. -/
def decodeNum : Json → Option Rat
  | .num q => some q
  | _ => none

/-- Pydantic `Optional[str]` field with default `None`: absent or `null`
gives `none`, a string gives `some`, anything else is a validation error. -/
def decodeOptStr : Option Json → Option (Option String)
  | none => some none
  | some .null => some none
  | some (.str s) => some (some s)
  | some _ => none

/-- Pydantic `Optional[float]` field with default `None`. -/
def decodeOptNum : Option Json → Option (Option Rat)
  | none => some none
  | some .null => some none
  | some (.num q) => some (some q)
  | some _ => none

/-- Element-wise decoding of a JSON array (pydantic `List[...]` field):
fails if any element fails, otherwise keeps all elements in order. -/
def decodeList (f : Json → Option α) : List Json → Option (List α)
  | [] => some []
  | x :: xs =>
    match f x, decodeList f xs with
    | some a, some as => some (a :: as)
    | _, _ => none

/-- Required object field of array shape (`plan_data["objectives"]` handed to
a pydantic `List[...]` field): missing key or non-array is an error. -/
def getArr (fs : List (String × Json)) (k : String) : Option (List Json) :=
  match fs.lookup k with
  | some (.arr xs) => some xs
  | _ => none

/-- `ProjectObjective(**obj)`: all six string fields required. -/
def decodeObjective : Json → Option ProjectObjective
  | .obj fs =>
    (fs.lookup "objective").bind fun j1 => (decodeStr j1).bind fun objective =>
    (fs.lookup "specific").bind fun j2 => (decodeStr j2).bind fun specific =>
    (fs.lookup "measurable").bind fun j3 => (decodeStr j3).bind fun measurable =>
    (fs.lookup "achievable").bind fun j4 => (decodeStr j4).bind fun achievable =>
    (fs.lookup "relevant").bind fun j5 => (decodeStr j5).bind fun relevant =>
    (fs.lookup "time_bound").bind fun j6 => (decodeStr j6).bind fun time_bound =>
    some { objective, specific, measurable, achievable, relevant, time_bound }
  | _ => none

/-- `WBSTask(**task)`: required fields plus defaults for `parent_id` (`None`)
and `dependencies` (`[]`). -/
def decodeWBSTask : Json → Option WBSTask
  | .obj fs =>
    (fs.lookup "id").bind fun j1 => (decodeStr j1).bind fun id =>
    (fs.lookup "name").bind fun j2 => (decodeStr j2).bind fun name =>
    (fs.lookup "description").bind fun j3 => (decodeStr j3).bind fun description =>
    (fs.lookup "level").bind fun j4 => (decodeInt j4).bind fun level =>
    (decodeOptStr (fs.lookup "parent_id")).bind fun parent_id =>
    (fs.lookup "estimated_hours").bind fun j5 => (decodeInt j5).bind fun estimated_hours =>
    (match fs.lookup "dependencies" with
      | none => some []
      | some (.arr xs) => decodeList decodeStr xs
      | some _ => none).bind fun dependencies =>
    (fs.lookup "assigned_role").bind fun j6 => (decodeStr j6).bind fun assigned_role =>
    (fs.lookup "priority").bind fun j7 => (decodeStr j7).bind fun priority =>
    some { id, name, description, level, parent_id, estimated_hours,
           dependencies, assigned_role, priority }
  | _ => none

/-- `ResourceEstimate(**res)`: required fields plus optional `cost_estimate`. -/
def decodeResourceEstimate : Json → Option ResourceEstimate
  | .obj fs =>
    (fs.lookup "role").bind fun j1 => (decodeStr j1).bind fun role =>
    (fs.lookup "hours_required").bind fun j2 => (decodeInt j2).bind fun hours_required =>
    (fs.lookup "skill_level").bind fun j3 => (decodeStr j3).bind fun skill_level =>
    (decodeOptNum (fs.lookup "cost_estimate")).bind fun cost_estimate =>
    some { role, hours_required, skill_level, cost_estimate }
  | _ => none

/-- `RiskItem(**risk)`: all five string fields required. -/
def decodeRiskItem : Json → Option RiskItem
  | .obj fs =>
    (fs.lookup "risk").bind fun j1 => (decodeStr j1).bind fun risk =>
    (fs.lookup "probability").bind fun j2 => (decodeStr j2).bind fun probability =>
    (fs.lookup "impact").bind fun j3 => (decodeStr j3).bind fun impact =>
    (fs.lookup "mitigation_strategy").bind fun j4 =>
      (decodeStr j4).bind fun mitigation_strategy =>
    (fs.lookup "owner").bind fun j5 => (decodeStr j5).bind fun owner =>
    some { risk, probability, impact, mitigation_strategy, owner }
  | _ => none

/-- The plan fields extracted from the parsed model reply (the keyword
arguments of the `ProjectPlan(...)` call at line 253, before the generated
`id` and `created_at` are added). -/
structure PlanData where
  objectives : List ProjectObjective
  wbs_tasks : List WBSTask
  timeline_weeks : Int
  resource_estimates : List ResourceEstimate
  risk_analysis : List RiskItem
  success_metrics : List String
  next_steps : List String
  confidence_score : Rat
deriving DecidableEq

/-- Extraction and validation of `plan_data` in `generate_plan` (lines
253-263): each `plan_data[key]` lookup can raise `KeyError` and each nested
pydantic construction can raise a validation error; any failure is caught by
the surrounding `except` and yields a 500. -/
def buildPlanData : Json → Option PlanData
  | .obj fs =>
    (getArr fs "objectives").bind fun objsJ =>
    (decodeList decodeObjective objsJ).bind fun objectives =>
    (getArr fs "wbs_tasks").bind fun tasksJ =>
    (decodeList decodeWBSTask tasksJ).bind fun wbs_tasks =>
    ((fs.lookup "timeline_weeks").bind decodeInt).bind fun timeline_weeks =>
    (getArr fs "resource_estimates").bind fun resJ =>
    (decodeList decodeResourceEstimate resJ).bind fun resource_estimates =>
    (getArr fs "risk_analysis").bind fun riskJ =>
    (decodeList decodeRiskItem riskJ).bind fun risk_analysis =>
    (getArr fs "success_metrics").bind fun metJ =>
    (decodeList decodeStr metJ).bind fun success_metrics =>
    (getArr fs "next_steps").bind fun stepJ =>
    (decodeList decodeStr stepJ).bind fun next_steps =>
    ((fs.lookup "confidence_score").bind decodeNum).bind fun confidence_score =>
    some { objectives, wbs_tasks, timeline_weeks, resource_estimates,
           risk_analysis, success_metrics, next_steps, confidence_score }
  | _ => none

/-- Response cleanup in `generate_project_plan` (lines 200-205): strip
whitespace, then if the text starts with a ` ```json ` fence take the slice
`[7:-3]`, else if it starts with a bare ` ``` ` fence take `[3:-3]`. -/
def preprocessResponse (response : List Char) : List Char :=
  let t := pyStrip response
  if startsWithChars t "```json".data then pySliceToNeg t 7 3
  else if startsWithChars t "```".data then pySliceToNeg t 3 3
  else t

/-- Python `requirements.budget_range or 'Not specified'` (line 139): `or`
yields the placeholder when the value is `None` or falsy (empty string). -/
def budgetText (r : ProjectRequirements) : String :=
  match r.budget_range with
  | some b => if b.isEmpty then "Not specified" else b
  | none => "Not specified"

/-- Template text of the planning prompt before the title (line 128). -/
def promptChunk0 : List Char :=
  "\n    AUTONOMOUS PROJECT PLANNING REQUEST\n\n    PROJECT DETAILS:\n    - Title: ".data

/-- Template text between title and description. -/
def promptChunk1 : List Char := "\n    - Description: ".data

/-- Template text between description and business context. -/
def promptChunk2 : List Char := "\n    - Business Context: ".data

/-- Template text between business context and success criteria. -/
def promptChunk3 : List Char := "\n    - Success Criteria: ".data

/-- Template text between success criteria and constraints. -/
def promptChunk4 : List Char := "\n    - Constraints: ".data

/-- Template text between constraints and stakeholders. -/
def promptChunk5 : List Char := "\n    - Stakeholders: ".data

/-- Template text between stakeholders and timeline preference. -/
def promptChunk6 : List Char := "\n    - Timeline Preference: ".data

/-- Template text between timeline preference and budget range. -/
def promptChunk7 : List Char := "\n    - Budget Range: ".data

/-- Fixed template text after the budget range (lines 141-193): the required
JSON structure example and the final instruction. -/
def promptTail : List Char :=
  ("\n\n    GENERATE A COMPREHENSIVE PROJECT PLAN WITH THE FOLLOWING STRUCTURE:\n\n    Please respond with a valid JSON object containing:\n\n    \x7b\n        \"objectives\": [\n            \x7b\n                \"objective\": \"Main objective statement\",\n                \"specific\": \"Specific details\",\n                \"measurable\": \"How success will be measured\",\n                \"achievable\": \"Why this is achievable\",\n                \"relevant\": \"Business relevance\",\n                \"time_bound\": \"Timeline commitment\"\n            \x7d\n        ],\n        \"wbs_tasks\": [\n            \x7b\n                \"id\": \"task_1\",\n                \"name\": \"Task Name\",\n                \"description\": \"Detailed task description\",\n                \"level\": 1,\n                \"parent_id\": null,\n                \"estimated_hours\": 40,\n                \"dependencies\": [],\n                \"assigned_role\": \"Role responsible\",\n                \"priority\": \"High/Medium/Low\"\n            \x7d\n        ],\n        \"timeline_weeks\": 12,\n        \"resource_estimates\": [\n            \x7b\n                \"role\": \"Project Manager\",\n                \"hours_required\": 200,\n                \"skill_level\": \"Senior\",\n                \"cost_estimate\": 25000\n            \x7d\n        ],\n        \"risk_analysis\": [\n            \x7b\n                \"risk\": \"Risk description\",\n                \"probability\": \"High/Medium/Low\",\n                \"impact\": \"High/Medium/Low\", \n                \"mitigation_strategy\": \"How to mitigate\",\n                \"owner\": \"Who owns this risk\"\n            \x7d\n        ],\n        \"success_metrics\": [\"Metric 1\", \"Metric 2\"],\n        \"next_steps\": [\"Step 1\", \"Step 2\"],\n        \"confidence_score\": 0.85\n    \x7d\n\n    IMPORTANT: Return ONLY the JSON object, no additional text or formatting.\n    ").data

/-- The `planning_prompt` f-string of `generate_project_plan` (lines
128-193): the fixed template with every requirements field interpolated. -/
def planningPrompt (r : ProjectRequirements) : List Char :=
  promptChunk0 ++ r.title.data ++ promptChunk1 ++ r.description.data ++
  promptChunk2 ++ r.business_context.data ++ promptChunk3 ++
  r.success_criteria.data ++ promptChunk4 ++ r.constraints.data ++
  promptChunk5 ++ r.stakeholders.data ++ promptChunk6 ++
  r.timeline_preference.data ++ promptChunk7 ++ (budgetText r).data ++
  promptTail

/-- `generate_project_plan` (lines 123-214): render the prompt, send it to
the model (the oracle reply `response` stands for the awaited text), clean
the reply and parse it. Returns the prompt that was sent together with the
parsed value, or the 500 raised on `json.JSONDecodeError` (line 211). -/
def generate_project_plan (parse : List Char → Option Json)
    (requirements : ProjectRequirements) (response : List Char) :
    List Char × Except (Nat × String) Json :=
  let prompt := planningPrompt requirements
  match parse (preprocessResponse response) with
  | some plan_data => (prompt, .ok plan_data)
  | none => (prompt, .error (500, "Failed to generate valid project plan"))

/-- `create_project_requirements` (lines 221-227): build the record with a
generated identifier (`uuid4`, supplied as `freshId`) and current timestamp
`now`, insert it, and return it. -/
def create_project_requirements (db : DB) (input : ProjectRequirementsCreate)
    (freshId : String) (now : Nat) : ProjectRequirements × DB :=
  let requirements_obj : ProjectRequirements :=
    { id := freshId, title := input.title, description := input.description,
      business_context := input.business_context,
      success_criteria := input.success_criteria,
      constraints := input.constraints, stakeholders := input.stakeholders,
      timeline_preference := input.timeline_preference,
      budget_range := input.budget_range, created_at := now }
  (requirements_obj,
   { db with
     project_requirements :=
       db.project_requirements ++ [{ oid := some db.nextOid, req := requirements_obj }],
     nextOid := db.nextOid + 1 })

/-- `get_project_requirements` (lines 229-235): look the record up by `id`;
404 when absent; on success re-validate the document through the pydantic
model, which drops the storage `_id`. -/
def get_project_requirements (db : DB) (requirements_id : String) :
    Except (Nat × String) ProjectRequirements :=
  match findReq db.project_requirements requirements_id with
  | none => .error (404, "Project requirements not found")
  | some doc => .ok doc.req

/-- Result of the `generate_plan` route: the HTTP outcome, the store after
the request, and the prompt sent to the external model (`none` when the
model was never called). -/
structure GenOut where
  result : Except (Nat × String) ProjectPlan
  db : DB
  promptSent : Option (List Char)

/-- `generate_plan` (lines 237-272): fetch the requirements (404 when
absent), call the model via `generate_project_plan`, extract and validate
the plan fields, persist the new `ProjectPlan` and return it; any exception
in the `try` block becomes a 500 with nothing persisted. -/
def generate_plan (parse : List Char → Option Json) (db : DB)
    (requirements_id : String) (reply : List Char) (freshId : String)
    (now : Nat) : GenOut :=
  match findReq db.project_requirements requirements_id with
  | none => ⟨.error (404, "Project requirements not found"), db, none⟩
  | some doc =>
    let sent := generate_project_plan parse doc.req reply
    match sent.2 with
    | .error e => ⟨.error (500, "Failed to generate project plan: " ++ e.2), db, some sent.1⟩
    | .ok plan_data =>
      match buildPlanData plan_data with
      | none =>
        ⟨.error (500, "Failed to generate project plan: validation error"), db, some sent.1⟩
      | some pd =>
        let project_plan : ProjectPlan :=
          { id := freshId, project_requirements_id := requirements_id,
            objectives := pd.objectives, wbs_tasks := pd.wbs_tasks,
            timeline_weeks := pd.timeline_weeks,
            resource_estimates := pd.resource_estimates,
            risk_analysis := pd.risk_analysis,
            success_metrics := pd.success_metrics,
            next_steps := pd.next_steps,
            confidence_score := pd.confidence_score, created_at := now }
        ⟨.ok project_plan,
         { db with
           project_plans :=
             db.project_plans ++ [{ oid := some db.nextOid, plan := project_plan }],
           nextOid := db.nextOid + 1 },
         some sent.1⟩

/-- `get_project_plan` (lines 274-280): look the plan document up by `id`
and return the raw stored document (no pydantic re-validation, so the
storage `_id` stays in the response). -/
def get_project_plan (db : DB) (plan_id : String) :
    Except (Nat × String) PlanDoc :=
  match findPlan db.project_plans plan_id with
  | none => .error (404, "Project plan not found")
  | some plan => .ok plan

/-- `get_all_project_plans` (lines 282-286): `find().to_list(100)`, the raw
documents in insertion order capped at 100. -/
def get_all_project_plans (db : DB) : List PlanDoc :=
  db.project_plans.take 100

/-- `get_all_project_requirements` (lines 288-296): `find().to_list(100)`,
then delete the `_id` key from every returned document. -/
def get_all_project_requirements (db : DB) : List ReqDoc :=
  (db.project_requirements.take 100).map
    (fun req => if req.oid.isSome then { req with oid := none } else req)

/-- One inbound API request with the nondeterministic inputs made explicit:
generated UUIDs and timestamps (`freshId`, `now`) and the external model's
reply text for generation requests. -/
inductive ApiOp where
  | rootMessage
  | createRequirements (input : ProjectRequirementsCreate) (freshId : String) (now : Nat)
  | getRequirements (requirements_id : String)
  | generatePlanFor (requirements_id : String) (reply : List Char) (freshId : String) (now : Nat)
  | getPlan (plan_id : String)
  | listPlans
  | listRequirements

/-- The body returned by an API route (success payloads of the seven routes,
or an `HTTPException` status and detail). -/
inductive ApiResponse where
  | message (s : String)
  | requirementsRecord (r : ProjectRequirements)
  | planRecord (p : ProjectPlan)
  | planDocument (d : PlanDoc)
  | planDocuments (ds : List PlanDoc)
  | requirementsDocuments (ds : List ReqDoc)
  | failure (status : Nat) (detail : String)

/-- Dispatch of the seven routes of `api_router` (lines 217-296): each
request reads the store, possibly inserts, and produces a response together
with the store left behind. -/
def apiStep (parse : List Char → Option Json) : ApiOp → DB → ApiResponse × DB
  | .rootMessage, db =>
    (.message "Autonomous AI Project Manager - Planning Agent Ready", db)
  | .createRequirements input freshId now, db =>
    let out := create_project_requirements db input freshId now
    (.requirementsRecord out.1, out.2)
  | .getRequirements rid, db =>
    (match get_project_requirements db rid with
     | .ok r => .requirementsRecord r
     | .error e => .failure e.1 e.2, db)
  | .generatePlanFor rid reply freshId now, db =>
    let out := generate_plan parse db rid reply freshId now
    ((match out.result with
      | .ok p => .planRecord p
      | .error e => .failure e.1 e.2), out.db)
  | .getPlan pid, db =>
    (match get_project_plan db pid with
     | .ok d => .planDocument d
     | .error e => .failure e.1 e.2, db)
  | .listPlans, db => (.planDocuments (get_all_project_plans db), db)
  | .listRequirements, db => (.requirementsDocuments (get_all_project_requirements db), db)

/-- The text `t` occurs contiguously inside `l`. -/
def occursIn (t l : List Char) : Prop := ∃ s u, l = s ++ t ++ u

/-- A successfully decoded list has exactly one entry per array element. -/
theorem decodeList_length {α : Type} (f : Json → Option α) :
    ∀ (xs : List Json) (ys : List α), decodeList f xs = some ys → ys.length = xs.length := by
  intro xs
  induction xs with
  | nil => intro ys h; simp [decodeList] at h; simp [← h]
  | cons x xs ih =>
    intro ys h
    simp only [decodeList] at h
    cases hf : f x with
    | none => rw [hf] at h; simp at h
    | some a =>
      cases hd : decodeList f xs with
      | none => rw [hf, hd] at h; simp at h
      | some as =>
        rw [hf, hd] at h
        simp only [Option.some.injEq] at h
        subst h
        simp [ih as hd]

/-- `find?` over a list that rejects every element finds a matching appended
element. -/
theorem find?_append_of_notFound {α : Type} (p : α → Bool) (l : List α) (d : α)
    (h : ∀ x ∈ l, p x = false) (hd : p d = true) :
    (l ++ [d]).find? p = some d := by
  induction l with
  | nil => simp [List.find?, hd]
  | cons a as ih =>
    have ha : p a = false := h a (by simp)
    simpa [List.find?_cons, ha] using ih (fun x hx => h x (by simp [hx]))

/-- A list starts with its own front segment. -/
theorem startsWithChars_append_self (p l : List Char) :
    startsWithChars (p ++ l) p = true := by
  induction p with
  | nil => cases l <;> rfl
  | cons a as ih => simp [startsWithChars, ih]

/-- Matching a pattern sharing the front segment `p` reduces to the tails. -/
theorem startsWithChars_append_both (p x y : List Char) :
    startsWithChars (p ++ x) (p ++ y) = startsWithChars x y := by
  induction p with
  | nil => rfl
  | cons a as ih => simp [startsWithChars, ih]

/-- A match against `p ++ q` is in particular a match against `p`. -/
theorem startsWithChars_of_append (l p q : List Char)
    (h : startsWithChars l (p ++ q) = true) : startsWithChars l p = true := by
  induction p generalizing l with
  | nil => cases l <;> rfl
  | cons a as ih =>
    cases l with
    | nil => simp [startsWithChars] at h
    | cons b bs =>
      simp only [List.cons_append, startsWithChars, Bool.and_eq_true] at h ⊢
      exact ⟨h.1, ih bs h.2⟩

/-- The Python slice `(a ++ body ++ b)[len a : -len b]` recovers `body`. -/
theorem pySliceToNeg_wrap (a body b : List Char) :
    pySliceToNeg (a ++ body ++ b) a.length b.length = body := by
  unfold pySliceToNeg
  have h1 : (a ++ body ++ b).length - b.length = (a ++ body).length := by
    simp [List.length_append]
    omega
  rw [h1, List.take_left, List.drop_left]

/-- `generate_plan` either leaves the store untouched or appends exactly one
plan document; it never writes the requirements collection. -/
theorem generate_plan_store (parse : List Char → Option Json) (db : DB)
    (rid : String) (reply : List Char) (freshId : String) (now : Nat) :
    ∃ np, (generate_plan parse db rid reply freshId now).db.project_plans =
        db.project_plans ++ np ∧
      (generate_plan parse db rid reply freshId now).db.project_requirements =
        db.project_requirements := by
  rcases h1 : findReq db.project_requirements rid with _ | doc
  · exact ⟨[], by simp [generate_plan, h1], by simp [generate_plan, h1]⟩
  · rcases h2 : (generate_project_plan parse doc.req reply).2 with e | plan_data
    · exact ⟨[], by simp [generate_plan, h1, h2], by simp [generate_plan, h1, h2]⟩
    · rcases h3 : buildPlanData plan_data with _ | pd
      · exact ⟨[], by simp [generate_plan, h1, h2, h3], by simp [generate_plan, h1, h2, h3]⟩
      · exact ⟨[{ oid := some db.nextOid,
                  plan := { id := freshId, project_requirements_id := rid,
                            objectives := pd.objectives, wbs_tasks := pd.wbs_tasks,
                            timeline_weeks := pd.timeline_weeks,
                            resource_estimates := pd.resource_estimates,
                            risk_analysis := pd.risk_analysis,
                            success_metrics := pd.success_metrics,
                            next_steps := pd.next_steps,
                            confidence_score := pd.confidence_score,
                            created_at := now } }],
               by simp [generate_plan, h1, h2, h3], by simp [generate_plan, h1, h2, h3]⟩

/-- A sample requirements submission used to exercise the endpoints. -/
def exampleCreate : ProjectRequirementsCreate :=
  { title := "T", description := "D", business_context := "B",
    success_criteria := "S", constraints := "C", stakeholders := "K",
    timeline_preference := "W", budget_range := none }

/-- A sample stored requirements record with identifier `r1`. -/
def exampleReq : ProjectRequirements :=
  { id := "r1", title := "T", description := "D", business_context := "B",
    success_criteria := "S", constraints := "C", stakeholders := "K",
    timeline_preference := "W", budget_range := none, created_at := 0 }

/-- A store holding the single requirements record `r1`. -/
def exampleDb : DB :=
  { project_requirements := [{ oid := some 0, req := exampleReq }],
    project_plans := [], nextOid := 1 }

/-- A sample objectives entry of a model reply. -/
def exampleObjectiveJson : Json :=
  .obj [("objective", .str "o"), ("specific", .str "s"),
        ("measurable", .str "m"), ("achievable", .str "a"),
        ("relevant", .str "rv"), ("time_bound", .str "tb")]

/-- A sample WBS task entry of a model reply. -/
def exampleTaskJson : Json :=
  .obj [("id", .str "task_1"), ("name", .str "n"), ("description", .str "d"),
        ("level", .num 1), ("parent_id", .null), ("estimated_hours", .num 40),
        ("dependencies", .arr []), ("assigned_role", .str "dev"),
        ("priority", .str "High")]

/-- A sample resource estimate entry of a model reply. -/
def exampleResJson : Json :=
  .obj [("role", .str "PM"), ("hours_required", .num 200),
        ("skill_level", .str "Senior"), ("cost_estimate", .num 25000)]

/-- A sample risk entry of a model reply. -/
def exampleRiskJson : Json :=
  .obj [("risk", .str "rk"), ("probability", .str "High"),
        ("impact", .str "Low"), ("mitigation_strategy", .str "ms"),
        ("owner", .str "ow")]

/-- A sample well-formed model reply: a JSON object matching the expected
plan schema. -/
def exampleReplyJson : Json :=
  .obj
    [("objectives", .arr [exampleObjectiveJson]),
     ("wbs_tasks", .arr [exampleTaskJson]),
     ("timeline_weeks", .num 12),
     ("resource_estimates", .arr [exampleResJson]),
     ("risk_analysis", .arr [exampleRiskJson]),
     ("success_metrics", .arr [.str "M1", .str "M2"]),
     ("next_steps", .arr [.str "S1"]),
     ("confidence_score", .num 1)]

/-- The plan fields that `exampleReplyJson` validates to. -/
def examplePlanData : PlanData :=
  { objectives := [{ objective := "o", specific := "s", measurable := "m",
                     achievable := "a", relevant := "rv", time_bound := "tb" }],
    wbs_tasks := [{ id := "task_1", name := "n", description := "d",
                    level := 1, parent_id := none, estimated_hours := 40,
                    dependencies := [], assigned_role := "dev",
                    priority := "High" }],
    timeline_weeks := 12,
    resource_estimates := [{ role := "PM", hours_required := 200,
                             skill_level := "Senior",
                             cost_estimate := some 25000 }],
    risk_analysis := [{ risk := "rk", probability := "High", impact := "Low",
                        mitigation_strategy := "ms", owner := "ow" }],
    success_metrics := ["M1", "M2"],
    next_steps := ["S1"],
    confidence_score := 1 }

/-- A sample stored plan record referencing `r1`. -/
def examplePlan : ProjectPlan :=
  { id := "p1", project_requirements_id := "r1",
    objectives := examplePlanData.objectives,
    wbs_tasks := examplePlanData.wbs_tasks,
    timeline_weeks := examplePlanData.timeline_weeks,
    resource_estimates := examplePlanData.resource_estimates,
    risk_analysis := examplePlanData.risk_analysis,
    success_metrics := examplePlanData.success_metrics,
    next_steps := examplePlanData.next_steps,
    confidence_score := examplePlanData.confidence_score, created_at := 7 }

/-- A store holding the single plan document `p1` (with its storage id). -/
def examplePlanDb : DB :=
  { project_requirements := [],
    project_plans := [{ oid := some 3, plan := examplePlan }], nextOid := 4 }

/-- `find_one` on a collection extended with a fresh-id document returns
exactly that document. -/
theorem findReq_append_fresh (l : List ReqDoc) (d : ReqDoc) (rid : String)
    (hid : d.req.id = rid) (h : ∀ x ∈ l, x.req.id ≠ rid) :
    findReq (l ++ [d]) rid = some d := by
  unfold findReq
  apply find?_append_of_notFound
  · intro x hx
    simp only [beq_eq_false_iff_ne, ne_eq]
    exact h x hx
  · simp [hid]

/-- C4: a generation request whose requirements identifier matches no stored
record returns 404, sends no prompt to the external model, and leaves the
store (both collections and the id counter) unchanged. -/
theorem C4_generate_plan_unknown_id_404 (parse : List Char → Option Json)
    (db : DB) (requirements_id : String) (reply : List Char) (freshId : String)
    (now : Nat) (h : findReq db.project_requirements requirements_id = none) :
    generate_plan parse db requirements_id reply freshId now =
      ⟨.error (404, "Project requirements not found"), db, none⟩ := by
  simp [generate_plan, h]

/-- Witness for C4: the empty store knows no identifier `missing`. -/
theorem C4_witness :
    findReq (DB.mk [] [] 0).project_requirements "missing" = none ∧
    generate_plan (fun _ => none) (DB.mk [] [] 0) "missing" "prose".data "p1" 5 =
      ⟨.error (404, "Project requirements not found"), DB.mk [] [] 0, none⟩ :=
  ⟨rfl, C4_generate_plan_unknown_id_404 (fun _ => none) (DB.mk [] [] 0)
    "missing" "prose".data "p1" 5 rfl⟩

/-- C2: when the requirements record exists but the external model's reply
does not parse as JSON, the generation request fails with status 500 and the
store — in particular the plan collection — is exactly what it was before. -/
theorem C2_unparseable_reply_500_no_insert (parse : List Char → Option Json)
    (db : DB) (requirements_id : String) (reply : List Char) (freshId : String)
    (now : Nat) (doc : ReqDoc)
    (h1 : findReq db.project_requirements requirements_id = some doc)
    (h2 : parse (preprocessResponse reply) = none) :
    (∃ msg, (generate_plan parse db requirements_id reply freshId now).result =
      .error (500, msg)) ∧
    (generate_plan parse db requirements_id reply freshId now).db = db := by
  have hp : (generate_project_plan parse doc.req reply).2 =
      .error (500, "Failed to generate valid project plan") := by
    simp [generate_project_plan, h2]
  exact ⟨⟨"Failed to generate project plan: Failed to generate valid project plan",
     by simp [generate_plan, h1, hp]⟩, by simp [generate_plan, h1, hp]⟩

/-- Witness for C2: a parse function rejecting everything, on the store
holding `r1`. -/
theorem C2_witness :
    findReq exampleDb.project_requirements "r1" = some { oid := some 0, req := exampleReq } ∧
    (fun _ : List Char => (none : Option Json)) (preprocessResponse "here is your plan".data) = none ∧
    (∃ msg, (generate_plan (fun _ => none) exampleDb "r1" "here is your plan".data "p1" 5).result =
      .error (500, msg)) ∧
    (generate_plan (fun _ => none) exampleDb "r1" "here is your plan".data "p1" 5).db = exampleDb :=
  ⟨by decide, rfl,
   C2_unparseable_reply_500_no_insert (fun _ => none) exampleDb "r1"
     "here is your plan".data "p1" 5 { oid := some 0, req := exampleReq } (by decide) rfl⟩

/-- C6: both listing endpoints return at most 100 items, and every item of
the requirements listing has its storage-only `_id` removed. -/
theorem C6_listings_bounded_and_stripped (db : DB) :
    (get_all_project_plans db).length ≤ 100 ∧
    (get_all_project_requirements db).length ≤ 100 ∧
    ((get_all_project_requirements db).all fun d => d.oid.isNone) = true := by
  refine ⟨List.length_take_le 100 _, ?_, ?_⟩
  · simp [get_all_project_requirements, List.length_take_le]
  · simp only [get_all_project_requirements, List.all_eq_true, List.mem_map]
    rintro d ⟨x, _, rfl⟩
    cases h : x.oid <;> simp [h]

/-- C10: a plan fetched by identifier is one of the raw stored documents
(storage `_id` intact), and the plan listing returns the stored documents
themselves — no `_id` stripping happens on any plan read, unlike the
requirements listing. -/
theorem C10_plan_reads_keep_storage_id (db : DB) (plan_id : String) (d : PlanDoc)
    (hall : ∀ x ∈ db.project_plans, x.oid.isSome = true)
    (h : get_project_plan db plan_id = .ok d) :
    d ∈ db.project_plans ∧ d.oid.isSome = true ∧
    get_all_project_plans db = db.project_plans.take 100 ∧
    ∀ x ∈ get_all_project_plans db, x.oid.isSome = true := by
  have hf : findPlan db.project_plans plan_id = some d := by
    revert h
    unfold get_project_plan
    cases findPlan db.project_plans plan_id <;> simp
  have hmem : d ∈ db.project_plans := List.mem_of_find?_eq_some hf
  refine ⟨hmem, hall d hmem, rfl, ?_⟩
  intro x hx
  exact hall x (List.take_subset 100 _ hx)

/-- Witness for C10: fetching `p1` from a store whose only plan document
carries storage id 3 returns that document, `_id` included. -/
theorem C10_witness :
    (∀ x ∈ examplePlanDb.project_plans, x.oid.isSome = true) ∧
    get_project_plan examplePlanDb "p1" = .ok { oid := some 3, plan := examplePlan } ∧
    ({ oid := some 3, plan := examplePlan } : PlanDoc) ∈ examplePlanDb.project_plans ∧
    ({ oid := some 3, plan := examplePlan } : PlanDoc).oid.isSome = true ∧
    get_all_project_plans examplePlanDb = examplePlanDb.project_plans.take 100 ∧
    ∀ x ∈ get_all_project_plans examplePlanDb, x.oid.isSome = true := by
  refine ⟨by decide, rfl, ?_⟩
  have := C10_plan_reads_keep_storage_id examplePlanDb "p1"
    { oid := some 3, plan := examplePlan } (by decide) rfl
  exact ⟨this.1, this.2.1, this.2.2.1, this.2.2.2⟩

/-- C5: creating a requirements record with a fresh non-empty generated
identifier and then fetching that identifier returns a record equal to the
submission in every submitted field, with the generated identifier and the
creation timestamp. -/
theorem C5_create_then_get_roundtrip (db : DB) (input : ProjectRequirementsCreate)
    (freshId : String) (now : Nat) (r : ProjectRequirements) (db' : DB)
    (hfresh : ∀ d ∈ db.project_requirements, d.req.id ≠ freshId)
    (hne : freshId ≠ "")
    (hcreate : create_project_requirements db input freshId now = (r, db')) :
    get_project_requirements db' r.id = .ok r ∧
    r.title = input.title ∧ r.description = input.description ∧
    r.business_context = input.business_context ∧
    r.success_criteria = input.success_criteria ∧
    r.constraints = input.constraints ∧ r.stakeholders = input.stakeholders ∧
    r.timeline_preference = input.timeline_preference ∧
    r.budget_range = input.budget_range ∧
    r.id ≠ "" ∧ r.created_at = now := by
  have h1 : (create_project_requirements db input freshId now).1 = r := by rw [hcreate]
  have h2 : (create_project_requirements db input freshId now).2 = db' := by rw [hcreate]
  have hrid : r.id = freshId := by rw [← h1]; rfl
  have hdb2 : db'.project_requirements =
      db.project_requirements ++ [⟨some db.nextOid, r⟩] := by
    rw [← h2, ← h1]; rfl
  have hfind : findReq db'.project_requirements r.id = some ⟨some db.nextOid, r⟩ := by
    rw [hdb2, hrid]
    exact findReq_append_fresh db.project_requirements ⟨some db.nextOid, r⟩ freshId
      hrid (fun x hx => hfresh x hx)
  refine ⟨?_, by rw [← h1]; rfl, by rw [← h1]; rfl, by rw [← h1]; rfl,
    by rw [← h1]; rfl, by rw [← h1]; rfl, by rw [← h1]; rfl,
    by rw [← h1]; rfl, by rw [← h1]; rfl,
    by rw [hrid]; exact hne, by rw [← h1]; rfl⟩
  unfold get_project_requirements
  rw [hfind]

/-- Witness for C5: submitting `exampleCreate` to the empty store with the
fresh identifier `r9`. -/
theorem C5_witness :
    (∀ d ∈ (DB.mk [] [] 0).project_requirements, d.req.id ≠ "r9") ∧
    ("r9" : String) ≠ "" ∧
    get_project_requirements
      (create_project_requirements (DB.mk [] [] 0) exampleCreate "r9" 5).2
      (create_project_requirements (DB.mk [] [] 0) exampleCreate "r9" 5).1.id =
      .ok (create_project_requirements (DB.mk [] [] 0) exampleCreate "r9" 5).1 ∧
    (create_project_requirements (DB.mk [] [] 0) exampleCreate "r9" 5).1.title =
      exampleCreate.title := by
  have h := C5_create_then_get_roundtrip (DB.mk [] [] 0) exampleCreate "r9" 5
    (create_project_requirements (DB.mk [] [] 0) exampleCreate "r9" 5).1
    (create_project_requirements (DB.mk [] [] 0) exampleCreate "r9" 5).2
    (by simp) (by decide) rfl
  exact ⟨by simp, by decide, h.1, h.2.1⟩

/-- C8: no API request updates or deletes a stored document — after any
operation both collections are the prior collections with zero or more new
documents appended. -/
theorem C8_append_only (parse : List Char → Option Json) (op : ApiOp) (db : DB) :
    ∃ newReqs newPlans,
      (apiStep parse op db).2.project_requirements =
        db.project_requirements ++ newReqs ∧
      (apiStep parse op db).2.project_plans = db.project_plans ++ newPlans := by
  cases op with
  | rootMessage => exact ⟨[], [], by simp [apiStep], by simp [apiStep]⟩
  | createRequirements input freshId now =>
    exact ⟨[{ oid := some db.nextOid,
              req := { id := freshId, title := input.title,
                       description := input.description,
                       business_context := input.business_context,
                       success_criteria := input.success_criteria,
                       constraints := input.constraints,
                       stakeholders := input.stakeholders,
                       timeline_preference := input.timeline_preference,
                       budget_range := input.budget_range,
                       created_at := now } }], [],
      by simp [apiStep, create_project_requirements],
      by simp [apiStep, create_project_requirements]⟩
  | getRequirements rid => exact ⟨[], [], by simp [apiStep], by simp [apiStep]⟩
  | generatePlanFor rid reply freshId now =>
    obtain ⟨np, hp, hr⟩ := generate_plan_store parse db rid reply freshId now
    exact ⟨[], np, by simp [apiStep, hr], by simp [apiStep, hp]⟩
  | getPlan pid => exact ⟨[], [], by simp [apiStep], by simp [apiStep]⟩
  | listPlans => exact ⟨[], [], by simp [apiStep], by simp [apiStep]⟩
  | listRequirements => exact ⟨[], [], by simp [apiStep], by simp [apiStep]⟩

/-- C9: when the stripped reply opens with a fence but does not close with
one, the cleanup still removes three trailing characters: the text handed to
the parser is the reply minus its leading fence (7 characters for a
json-tagged fence, 3 for a bare one) and minus the final three characters of
the remaining payload. -/
theorem C9_unterminated_fence_truncates (reply : List Char)
    (h1 : startsWithChars (pyStrip reply) "```".data = true)
    (h2 : endsWithChars (pyStrip reply) "```".data = false) :
    preprocessResponse reply =
      (if startsWithChars (pyStrip reply) "```json".data then
        ((pyStrip reply).drop 7).take (((pyStrip reply).drop 7).length - 3)
      else
        ((pyStrip reply).drop 3).take (((pyStrip reply).drop 3).length - 3)) := by
  unfold preprocessResponse pySliceToNeg
  cases hj : startsWithChars (pyStrip reply) "```json".data with
  | true =>
    simp only [hj, if_true]
    rw [List.drop_take, List.length_drop]
    have he : (pyStrip reply).length - 3 - 7 = (pyStrip reply).length - 7 - 3 := by
      omega
    rw [he]
  | false =>
    simp only [hj, h1, Bool.false_eq_true, if_false, if_true]
    rw [List.drop_take, List.length_drop]

/-- Witness for C9: the reply `` ```json{"a ``, fenced but unterminated, is
cut down to its payload minus the payload's last three characters. -/
theorem C9_witness :
    startsWithChars (pyStrip "```json\x7b\"abcd".data) "```".data = true ∧
    endsWithChars (pyStrip "```json\x7b\"abcd".data) "```".data = false ∧
    preprocessResponse "```json\x7b\"abcd".data =
      (if startsWithChars (pyStrip "```json\x7b\"abcd".data) "```json".data then
        ((pyStrip "```json\x7b\"abcd".data).drop 7).take
          (((pyStrip "```json\x7b\"abcd".data).drop 7).length - 3)
      else
        ((pyStrip "```json\x7b\"abcd".data).drop 3).take
          (((pyStrip "```json\x7b\"abcd".data).drop 3).length - 3)) :=
  ⟨by decide, by decide,
   C9_unterminated_fence_truncates "```json\x7b\"abcd".data (by decide) (by decide)⟩

/-- C3: a reply that is a JSON object wrapped in a json-tagged or bare code
fence has exactly the one leading and one trailing fence stripped by the
cleanup, so it hands the parser the wrapped text itself and — for any
whitespace-insensitive parser — yields the same value as the unwrapped
reply. -/
theorem C3_fenced_reply_parses_like_unfenced (parse : List Char → Option Json)
    (reply reply2 body : List Char)
    (hws : ∀ s, parse (pyStrip s) = parse s)
    (h1 : pyStrip reply = "```json".data ++ body ++ "```".data)
    (h2 : pyStrip reply2 = "```".data ++ body ++ "```".data)
    (hb : startsWithChars (body ++ "```".data) "json".data = false)
    (hnf : startsWithChars (pyStrip body) "```".data = false) :
    parse (preprocessResponse reply) = parse (preprocessResponse body) ∧
    parse (preprocessResponse reply2) = parse (preprocessResponse body) := by
  have hnfj : startsWithChars (pyStrip body) "```json".data = false := by
    cases hx : startsWithChars (pyStrip body) "```json".data
    · rfl
    · exfalso
      have e : ("```json".data : List Char) = "```".data ++ "json".data := by decide
      rw [e] at hx
      have h3 := startsWithChars_of_append (pyStrip body) "```".data "json".data hx
      rw [hnf] at h3
      exact Bool.noConfusion h3
  have hbody : preprocessResponse body = pyStrip body := by
    simp only [preprocessResponse, hnfj, hnf, Bool.false_eq_true, if_false]
  have hpbody : parse (preprocessResponse body) = parse body := by
    rw [hbody, hws]
  constructor
  · have hpre : preprocessResponse reply = body := by
      simp only [preprocessResponse, h1]
      have hs : startsWithChars ("```json".data ++ body ++ "```".data)
          "```json".data = true := by
        rw [List.append_assoc]
        exact startsWithChars_append_self _ _
      simp only [hs, if_true]
      have h7 : ("```json".data : List Char).length = 7 := by decide
      have h3 : ("```".data : List Char).length = 3 := by decide
      rw [← h7, ← h3]
      exact pySliceToNeg_wrap _ _ _
    rw [hpre, hpbody]
  · have hpre : preprocessResponse reply2 = body := by
      simp only [preprocessResponse, h2]
      have hcond : startsWithChars ("```".data ++ body ++ "```".data)
          "```json".data = false := by
        have e : ("```json".data : List Char) = "```".data ++ "json".data := by decide
        rw [e, List.append_assoc, startsWithChars_append_both]
        exact hb
      have hs3 : startsWithChars ("```".data ++ body ++ "```".data)
          "```".data = true := by
        rw [List.append_assoc]
        exact startsWithChars_append_self _ _
      simp only [hcond, hs3, Bool.false_eq_true, if_false, if_true]
      have h3 : ("```".data : List Char).length = 3 := by decide
      rw [← h3]
      exact pySliceToNeg_wrap _ _ _
    rw [hpre, hpbody]

/-- Witness for C3: the object text `{}` wrapped in a json-tagged fence and
in a bare fence. -/
theorem C3_witness :
    pyStrip "```json\x7b\x7d```".data = "```json".data ++ "\x7b\x7d".data ++ "```".data ∧
    pyStrip "```\x7b\x7d```".data = "```".data ++ "\x7b\x7d".data ++ "```".data ∧
    ((fun _ : List Char => (none : Option Json)) (preprocessResponse "```json\x7b\x7d```".data) =
      (fun _ : List Char => (none : Option Json)) (preprocessResponse "\x7b\x7d".data)) ∧
    ((fun _ : List Char => (none : Option Json)) (preprocessResponse "```\x7b\x7d```".data) =
      (fun _ : List Char => (none : Option Json)) (preprocessResponse "\x7b\x7d".data)) :=
  ⟨by decide, by decide,
   C3_fenced_reply_parses_like_unfenced (fun _ => none) "```json\x7b\x7d```".data
     "```\x7b\x7d```".data "\x7b\x7d".data (fun _ => rfl) (by decide) (by decide)
     (by decide) (by decide)⟩

/-- C7: the rendered planning prompt contains every requirements field —
title, description, business context, success criteria, constraints,
stakeholders, timeline preference and the budget text — and when the
optional budget range is absent the literal placeholder `Not specified`
appears in its place (a present non-empty budget appears verbatim). -/
theorem C7_prompt_embeds_every_field (r : ProjectRequirements) :
    occursIn r.title.data (planningPrompt r) ∧
    occursIn r.description.data (planningPrompt r) ∧
    occursIn r.business_context.data (planningPrompt r) ∧
    occursIn r.success_criteria.data (planningPrompt r) ∧
    occursIn r.constraints.data (planningPrompt r) ∧
    occursIn r.stakeholders.data (planningPrompt r) ∧
    occursIn r.timeline_preference.data (planningPrompt r) ∧
    occursIn (budgetText r).data (planningPrompt r) ∧
    (r.budget_range = none → occursIn "Not specified".data (planningPrompt r)) ∧
    (∀ b, r.budget_range = some b → b.isEmpty = false →
      occursIn b.data (planningPrompt r)) := by
  have h1 : occursIn r.title.data (planningPrompt r) :=
    ⟨promptChunk0,
     promptChunk1 ++ r.description.data ++ promptChunk2 ++
       r.business_context.data ++ promptChunk3 ++ r.success_criteria.data ++
       promptChunk4 ++ r.constraints.data ++ promptChunk5 ++
       r.stakeholders.data ++ promptChunk6 ++ r.timeline_preference.data ++
       promptChunk7 ++ (budgetText r).data ++ promptTail,
     by simp [planningPrompt, List.append_assoc]⟩
  have h2 : occursIn r.description.data (planningPrompt r) :=
    ⟨promptChunk0 ++ r.title.data ++ promptChunk1,
     promptChunk2 ++ r.business_context.data ++ promptChunk3 ++
       r.success_criteria.data ++ promptChunk4 ++ r.constraints.data ++
       promptChunk5 ++ r.stakeholders.data ++ promptChunk6 ++
       r.timeline_preference.data ++ promptChunk7 ++ (budgetText r).data ++
       promptTail,
     by simp [planningPrompt, List.append_assoc]⟩
  have h3 : occursIn r.business_context.data (planningPrompt r) :=
    ⟨promptChunk0 ++ r.title.data ++ promptChunk1 ++ r.description.data ++
       promptChunk2,
     promptChunk3 ++ r.success_criteria.data ++ promptChunk4 ++
       r.constraints.data ++ promptChunk5 ++ r.stakeholders.data ++
       promptChunk6 ++ r.timeline_preference.data ++ promptChunk7 ++
       (budgetText r).data ++ promptTail,
     by simp [planningPrompt, List.append_assoc]⟩
  have h4 : occursIn r.success_criteria.data (planningPrompt r) :=
    ⟨promptChunk0 ++ r.title.data ++ promptChunk1 ++ r.description.data ++
       promptChunk2 ++ r.business_context.data ++ promptChunk3,
     promptChunk4 ++ r.constraints.data ++ promptChunk5 ++
       r.stakeholders.data ++ promptChunk6 ++ r.timeline_preference.data ++
       promptChunk7 ++ (budgetText r).data ++ promptTail,
     by simp [planningPrompt, List.append_assoc]⟩
  have h5 : occursIn r.constraints.data (planningPrompt r) :=
    ⟨promptChunk0 ++ r.title.data ++ promptChunk1 ++ r.description.data ++
       promptChunk2 ++ r.business_context.data ++ promptChunk3 ++
       r.success_criteria.data ++ promptChunk4,
     promptChunk5 ++ r.stakeholders.data ++ promptChunk6 ++
       r.timeline_preference.data ++ promptChunk7 ++ (budgetText r).data ++
       promptTail,
     by simp [planningPrompt, List.append_assoc]⟩
  have h6 : occursIn r.stakeholders.data (planningPrompt r) :=
    ⟨promptChunk0 ++ r.title.data ++ promptChunk1 ++ r.description.data ++
       promptChunk2 ++ r.business_context.data ++ promptChunk3 ++
       r.success_criteria.data ++ promptChunk4 ++ r.constraints.data ++
       promptChunk5,
     promptChunk6 ++ r.timeline_preference.data ++ promptChunk7 ++
       (budgetText r).data ++ promptTail,
     by simp [planningPrompt, List.append_assoc]⟩
  have h7 : occursIn r.timeline_preference.data (planningPrompt r) :=
    ⟨promptChunk0 ++ r.title.data ++ promptChunk1 ++ r.description.data ++
       promptChunk2 ++ r.business_context.data ++ promptChunk3 ++
       r.success_criteria.data ++ promptChunk4 ++ r.constraints.data ++
       promptChunk5 ++ r.stakeholders.data ++ promptChunk6,
     promptChunk7 ++ (budgetText r).data ++ promptTail,
     by simp [planningPrompt, List.append_assoc]⟩
  have h8 : occursIn (budgetText r).data (planningPrompt r) :=
    ⟨promptChunk0 ++ r.title.data ++ promptChunk1 ++ r.description.data ++
       promptChunk2 ++ r.business_context.data ++ promptChunk3 ++
       r.success_criteria.data ++ promptChunk4 ++ r.constraints.data ++
       promptChunk5 ++ r.stakeholders.data ++ promptChunk6 ++
       r.timeline_preference.data ++ promptChunk7,
     promptTail,
     by simp [planningPrompt, List.append_assoc]⟩
  refine ⟨h1, h2, h3, h4, h5, h6, h7, h8, ?_, ?_⟩
  · intro hnone
    have hbt : budgetText r = "Not specified" := by simp [budgetText, hnone]
    have hd := congrArg String.data hbt
    rw [← hd]
    exact h8
  · intro b hsome hbe
    have hbt : budgetText r = b := by simp [budgetText, hsome, hbe]
    have hd := congrArg String.data hbt
    rw [← hd]
    exact h8

/-- Witness for C7: the prompt for `exampleReq` (whose budget is absent)
contains its title and the literal budget placeholder. -/
theorem C7_witness :
    occursIn "T".data (planningPrompt exampleReq) ∧
    occursIn "Not specified".data (planningPrompt exampleReq) :=
  ⟨(C7_prompt_embeds_every_field exampleReq).1,
   (C7_prompt_embeds_every_field exampleReq).2.2.2.2.2.2.2.2.1 rfl⟩

/-- C1: a generation request against a stored requirements record whose
model reply parses to a schema-conforming JSON object returns and persists a
plan whose `project_requirements_id` is the identifier from the request
path, whose generated fields are the fresh id and timestamp, and whose six
nested lists each hold exactly one entry per element of the corresponding
array of the parsed reply. -/
theorem C1_generate_plan_mirrors_reply (parse : List Char → Option Json)
    (db : DB) (requirements_id : String) (reply : List Char) (freshId : String)
    (now : Nat) (doc : ReqDoc) (j : Json) (pd : PlanData)
    (objsJ tasksJ resJ riskJ metJ stepJ : List Json)
    (h1 : findReq db.project_requirements requirements_id = some doc)
    (h2 : parse (preprocessResponse reply) = some j)
    (h3 : buildPlanData j = some pd)
    (h4 : j.lookupField "objectives" = some (.arr objsJ))
    (h5 : j.lookupField "wbs_tasks" = some (.arr tasksJ))
    (h6 : j.lookupField "resource_estimates" = some (.arr resJ))
    (h7 : j.lookupField "risk_analysis" = some (.arr riskJ))
    (h8 : j.lookupField "success_metrics" = some (.arr metJ))
    (h9 : j.lookupField "next_steps" = some (.arr stepJ)) :
    ∃ plan : ProjectPlan,
      (generate_plan parse db requirements_id reply freshId now).result = .ok plan ∧
      (generate_plan parse db requirements_id reply freshId now).db.project_plans =
        db.project_plans ++ [{ oid := some db.nextOid, plan := plan }] ∧
      plan.project_requirements_id = requirements_id ∧
      plan.id = freshId ∧ plan.created_at = now ∧
      plan.objectives.length = objsJ.length ∧
      plan.wbs_tasks.length = tasksJ.length ∧
      plan.resource_estimates.length = resJ.length ∧
      plan.risk_analysis.length = riskJ.length ∧
      plan.success_metrics.length = metJ.length ∧
      plan.next_steps.length = stepJ.length := by
  cases j with
  | null => simp [buildPlanData] at h3
  | boolean b => simp [buildPlanData] at h3
  | num q => simp [buildPlanData] at h3
  | str s => simp [buildPlanData] at h3
  | arr xs => simp [buildPlanData] at h3
  | obj fs =>
    have h3' := h3
    have hp : (generate_project_plan parse doc.req reply).2 = .ok (.obj fs) := by
      simp [generate_project_plan, h2]
    simp only [Json.lookupField] at h4 h5 h6 h7 h8 h9
    have g1 : getArr fs "objectives" = some objsJ := by simp [getArr, h4]
    have g2 : getArr fs "wbs_tasks" = some tasksJ := by simp [getArr, h5]
    have g3 : getArr fs "resource_estimates" = some resJ := by simp [getArr, h6]
    have g4 : getArr fs "risk_analysis" = some riskJ := by simp [getArr, h7]
    have g5 : getArr fs "success_metrics" = some metJ := by simp [getArr, h8]
    have g6 : getArr fs "next_steps" = some stepJ := by simp [getArr, h9]
    simp only [buildPlanData] at h3
    rw [g1, Option.some_bind] at h3
    obtain ⟨objectives, e1, h3⟩ := Option.bind_eq_some.mp h3
    rw [g2, Option.some_bind] at h3
    obtain ⟨wtasks, e2, h3⟩ := Option.bind_eq_some.mp h3
    obtain ⟨tw, e3, h3⟩ := Option.bind_eq_some.mp h3
    rw [g3, Option.some_bind] at h3
    obtain ⟨res, e4, h3⟩ := Option.bind_eq_some.mp h3
    rw [g4, Option.some_bind] at h3
    obtain ⟨risks, e5, h3⟩ := Option.bind_eq_some.mp h3
    rw [g5, Option.some_bind] at h3
    obtain ⟨mets, e6, h3⟩ := Option.bind_eq_some.mp h3
    rw [g6, Option.some_bind] at h3
    obtain ⟨steps, e7, h3⟩ := Option.bind_eq_some.mp h3
    obtain ⟨conf, e8, h3⟩ := Option.bind_eq_some.mp h3
    rw [Option.some.injEq] at h3
    subst h3
    refine ⟨{ id := freshId, project_requirements_id := requirements_id,
              objectives := objectives, wbs_tasks := wtasks,
              timeline_weeks := tw, resource_estimates := res,
              risk_analysis := risks, success_metrics := mets,
              next_steps := steps, confidence_score := conf,
              created_at := now },
      ?_, ?_, rfl, rfl, rfl, ?_, ?_, ?_, ?_, ?_, ?_⟩
    · simp [generate_plan, h1, hp, h3']
    · simp [generate_plan, h1, hp, h3']
    · exact decodeList_length decodeObjective objsJ objectives e1
    · exact decodeList_length decodeWBSTask tasksJ wtasks e2
    · exact decodeList_length decodeResourceEstimate resJ res e4
    · exact decodeList_length decodeRiskItem riskJ risks e5
    · exact decodeList_length decodeStr metJ mets e6
    · exact decodeList_length decodeStr stepJ steps e7

/-- Witness for C1: generating against the stored record `r1` with a reply
that is `exampleReplyJson` yields a persisted plan mirroring its counts. -/
theorem C1_witness :
    findReq exampleDb.project_requirements "r1" = some { oid := some 0, req := exampleReq } ∧
    buildPlanData exampleReplyJson = some examplePlanData ∧
    ∃ plan : ProjectPlan,
      (generate_plan (fun _ => some exampleReplyJson) exampleDb "r1" "x".data "p1" 5).result =
        .ok plan ∧
      (generate_plan (fun _ => some exampleReplyJson) exampleDb "r1" "x".data "p1" 5).db.project_plans =
        exampleDb.project_plans ++ [{ oid := some exampleDb.nextOid, plan := plan }] ∧
      plan.project_requirements_id = "r1" ∧
      plan.id = "p1" ∧ plan.created_at = 5 ∧
      plan.objectives.length = [exampleObjectiveJson].length ∧
      plan.wbs_tasks.length = [exampleTaskJson].length ∧
      plan.resource_estimates.length = [exampleResJson].length ∧
      plan.risk_analysis.length = [exampleRiskJson].length ∧
      plan.success_metrics.length = [Json.str "M1", Json.str "M2"].length ∧
      plan.next_steps.length = [Json.str "S1"].length :=
  ⟨by decide, by decide,
   C1_generate_plan_mirrors_reply (fun _ => some exampleReplyJson) exampleDb
     "r1" "x".data "p1" 5 { oid := some 0, req := exampleReq }
     exampleReplyJson examplePlanData
     [exampleObjectiveJson] [exampleTaskJson] [exampleResJson]
     [exampleRiskJson] [Json.str "M1", Json.str "M2"] [Json.str "S1"]
     (by decide) rfl (by decide) rfl rfl rfl rfl rfl rfl⟩
